import Mathlib

/-!
Verification of the ninjaone-mcp core: the navigation state machine
(src/index.ts), the credential resolver and backing-client cache
(src/utils/client.ts, src/utils/types.ts) and the lazy domain handler
registry (src/domains/index.ts), shallowly embedded in Lean.

External effects are made explicit: environment variables become an `Env`
record read on every resolution, the process-wide mutable slots become
explicit state records threaded through the functions, JavaScript object
identity is modelled by a fresh `instanceId` drawn from an allocation
counter, and the two genuinely external behaviours (dynamic module import,
which may throw, and a domain handler dispatch, which may throw and may
use the client cache) are parameters of the step function (`ReqOracle`).
Thrown exceptions are modelled with `Except`; the try/catch block of the
CallTool request handler is inlined at the points where its body can
throw. Tool input schemas are data never inspected by this core and are
omitted from the `Tool` record, which keeps name and description.
-/

namespace NinjaOne

/-- Decidable equality of Except values, so that witnesses can be checked
by evaluation. -/
instance instDecEqExcept {ε α : Type} [DecidableEq ε] [DecidableEq α] :
    DecidableEq (Except ε α)
  | .error a, .error b =>
    if h : a = b then isTrue (h ▸ rfl)
    else isFalse (fun hc => h (Except.error.inj hc))
  | .error _, .ok _ => isFalse (fun hc => Except.noConfusion hc)
  | .ok _, .error _ => isFalse (fun hc => Except.noConfusion hc)
  | .ok a, .ok b =>
    if h : a = b then isTrue (h ▸ rfl)
    else isFalse (fun hc => h (Except.ok.inj hc))

/-! ### src/utils/types.ts -/

/-- One text content block of a tool call result. -/
structure TextContent where
  text : String
deriving DecidableEq, Repr

/-- Result shape returned by every tool call (utils/types.ts, CallToolResult).
`isError` is optional in the source and omitted on success. -/
structure CallToolResult where
  content : List TextContent
  isError : Option Bool := none
deriving DecidableEq, Repr

/-- A tool descriptor: name and description (the input schema is opaque
data this core never inspects and is not modelled). -/
structure Tool where
  name : String
  description : String
deriving DecidableEq, Repr

/-- utils/types.ts isDomainName: membership in the fixed domain list. -/
def isDomainName (value : String) : Bool :=
  ["devices", "organizations", "alerts", "tickets"].contains value

/-- utils/types.ts isValidRegion: membership in the fixed region list. -/
def isValidRegion (value : String) : Bool :=
  ["us", "eu", "oc"].contains value

/-- utils/types.ts getBaseUrlForRegion: eu and oc have dedicated hosts,
us and the default case share the app host. -/
def getBaseUrlForRegion (region : String) : String :=
  if region = "eu" then "https://eu.ninjarmm.com"
  else if region = "oc" then "https://oc.ninjarmm.com"
  else "https://app.ninjarmm.com"

/-! ### src/utils/client.ts — credential resolution -/

/-- The environment variables read by the credential resolver. `none`
models an unset variable. -/
structure Env where
  ninjaoneClientId : Option String
  ninjaoneClientSecret : Option String
  ninjaoneRegion : Option String
deriving DecidableEq, Repr

/-- JavaScript truthiness of an optional string: unset and the empty
string are falsy. -/
def truthy : Option String → Bool
  | none => false
  | some s => s ≠ ""

/-- JavaScript `x || d` on an optional string: unset or empty falls back
to the default. -/
def jsOrString (x : Option String) (d : String) : String :=
  match x with
  | none => d
  | some s => if s = "" then d else s

/-- JavaScript toLowerCase, written character-wise over the underlying
character list (extensionally the same as String.toLower, whose
implementation by well-founded recursion does not evaluate by kernel
reduction). -/
def toLowerStr (s : String) : String :=
  ⟨s.data.map Char.toLower⟩

/-- The region string actually used by getCredentials:
`process.env.NINJAONE_REGION?.toLowerCase() || "us"`. -/
def effectiveRegion (env : Env) : String :=
  jsOrString (env.ninjaoneRegion.map toLowerStr) "us"

/-- utils/client.ts NinjaOneCredentials. -/
structure NinjaOneCredentials where
  clientId : String
  clientSecret : String
  region : String
  baseUrl : String
deriving DecidableEq, Repr

/-- utils/client.ts getCredentials: reads the environment on every call;
returns null when client id or secret is unset or empty, null when the
(lower-cased, defaulted) region is not a valid region, and otherwise the
completed record with the endpoint mapped from the region. -/
def getCredentials (env : Env) : Option NinjaOneCredentials :=
  let clientId := env.ninjaoneClientId
  let clientSecret := env.ninjaoneClientSecret
  let regionEnv := effectiveRegion env
  if !truthy clientId || !truthy clientSecret then
    none
  else if !isValidRegion regionEnv then
    none
  else
    some { clientId := clientId.getD "", clientSecret := clientSecret.getD "",
           region := regionEnv, baseUrl := getBaseUrlForRegion regionEnv }

/-! ### src/utils/client.ts — backing-client cache -/

/-- An external NinjaOneClient instance. `instanceId` models JavaScript
object identity: each `new NinjaOneClient(...)` yields a fresh id. The
constructor binds clientId, clientSecret and baseUrl. -/
structure NinjaOneClient where
  instanceId : Nat
  clientId : String
  clientSecret : String
  baseUrl : String
deriving DecidableEq, Repr

/-- The module-level mutable slots `_client` and `_credentials` of
utils/client.ts, plus the allocation counter supplying fresh instance
identities. -/
structure ClientCacheState where
  client : Option NinjaOneClient
  credentials : Option NinjaOneCredentials
  nextInstanceId : Nat
deriving DecidableEq, Repr

/-- The credential-rotation comparison of getClient: the cached client is
stale iff clientId, clientSecret or region differs (baseUrl is not
compared; it is a function of region). -/
def credentialsChanged (creds stored : NinjaOneCredentials) : Bool :=
  creds.clientId ≠ stored.clientId ||
  creds.clientSecret ≠ stored.clientSecret ||
  creds.region ≠ stored.region

/-- The message of the error thrown by getClient when credentials do not
resolve. -/
def noCredentialsThrowMsg : String :=
  "No API credentials provided. Please configure NINJAONE_CLIENT_ID, NINJAONE_CLIENT_SECRET, and optionally NINJAONE_REGION (us, eu, oc) environment variables."

/-- utils/client.ts getClient: resolve credentials (throw when they do
not resolve), drop the cached client when any compared field changed,
construct and store a fresh client when the slot is empty, and return the
cached or fresh client. The state is returned alongside so that the
throwing path visibly leaves the slots untouched. -/
def getClient (env : Env) (st : ClientCacheState) :
    (Except String NinjaOneClient) × ClientCacheState :=
  match getCredentials env with
  | none => (.error noCredentialsThrowMsg, st)
  | some creds =>
    let st1 : ClientCacheState :=
      match st.client, st.credentials with
      | some _, some stored =>
        if credentialsChanged creds stored then { st with client := none } else st
      | _, _ => st
    match st1.client with
    | some c => (.ok c, st1)
    | none =>
      let c : NinjaOneClient :=
        { instanceId := st1.nextInstanceId, clientId := creds.clientId,
          clientSecret := creds.clientSecret, baseUrl := creds.baseUrl }
      (.ok c, { client := some c, credentials := some creds,
                nextInstanceId := st1.nextInstanceId + 1 })

/-- utils/client.ts clearClient: unconditionally empty both slots. -/
def clearClient (st : ClientCacheState) : ClientCacheState :=
  { st with client := none, credentials := none }

/-- Allocation soundness of a cache state: any cached client was drawn
from the counter, so its id is below the next fresh id. Holds for the
empty cache and is preserved by getClient. -/
def ClientCacheState.WF (st : ClientCacheState) : Prop :=
  ∀ c, st.client = some c → c.instanceId < st.nextInstanceId

/-! ### Meta-tool descriptors (src/index.ts) -/

/-- The always-available navigation tool (index.ts navigateTool). -/
def navigateTool : Tool :=
  { name := "ninjaone_navigate",
    description := "Navigate to a NinjaOne domain to access its tools. Available domains: devices (manage endpoints), organizations (manage customers), alerts (view and reset alerts), tickets (manage service tickets)." }

/-- The back navigation tool (index.ts backTool). -/
def backTool : Tool :=
  { name := "ninjaone_back",
    description := "Navigate back to the main menu to select a different domain" }

/-- The status tool (index.ts statusTool). -/
def statusTool : Tool :=
  { name := "ninjaone_status",
    description := "Show current navigation state and available domains. Also verifies API credentials are configured." }

/-! ### Domain tool descriptors (src/domains/devices.ts, organizations.ts, alerts.ts, tickets.ts) -/

/-- Tool descriptors of the devices domain handler. -/
def devicesTools : List Tool :=
  [ { name := "ninjaone_devices_list",
      description := "List devices in NinjaOne. Can filter by organization, device class, or online status." },
    { name := "ninjaone_devices_get",
      description := "Get details for a specific device by its ID" },
    { name := "ninjaone_devices_reboot",
      description := "Schedule a reboot for a device" },
    { name := "ninjaone_devices_services",
      description := "List Windows services on a device" },
    { name := "ninjaone_devices_alerts",
      description := "Get active alerts for a specific device" },
    { name := "ninjaone_devices_activities",
      description := "Get activity log for a device" } ]

/-- Tool descriptors of the organizations domain handler. -/
def organizationsTools : List Tool :=
  [ { name := "ninjaone_organizations_list",
      description := "List organizations in NinjaOne. Organizations represent customer accounts." },
    { name := "ninjaone_organizations_get",
      description := "Get details for a specific organization by its ID" },
    { name := "ninjaone_organizations_create",
      description := "Create a new organization in NinjaOne" },
    { name := "ninjaone_organizations_locations",
      description := "List locations for an organization" },
    { name := "ninjaone_organizations_devices",
      description := "List all devices for an organization" } ]

/-- Tool descriptors of the alerts domain handler. -/
def alertsTools : List Tool :=
  [ { name := "ninjaone_alerts_list",
      description := "List active alerts in NinjaOne. Can filter by severity, organization, or device." },
    { name := "ninjaone_alerts_reset",
      description := "Reset (dismiss) an alert. This acknowledges the alert and marks it as handled." },
    { name := "ninjaone_alerts_reset_all",
      description := "Reset (dismiss) all alerts for a device or organization. Use with caution." },
    { name := "ninjaone_alerts_summary",
      description := "Get a summary count of alerts grouped by severity and/or organization" } ]

/-- Tool descriptors of the tickets domain handler. -/
def ticketsTools : List Tool :=
  [ { name := "ninjaone_tickets_list",
      description := "List tickets in NinjaOne. Can filter by status, organization, or device." },
    { name := "ninjaone_tickets_get",
      description := "Get details for a specific ticket by its ID" },
    { name := "ninjaone_tickets_create",
      description := "Create a new ticket in NinjaOne" },
    { name := "ninjaone_tickets_update",
      description := "Update an existing ticket in NinjaOne" },
    { name := "ninjaone_tickets_add_comment",
      description := "Add a comment to a ticket" },
    { name := "ninjaone_tickets_comments",
      description := "Get comments/activity for a ticket" } ]

/-- The getTools function of the handler module belonging to a domain
name; the empty list stands for no module (never reached through the
registry, whose default branch throws instead of loading). -/
def domainToolsFor (d : String) : List Tool :=
  if d = "devices" then devicesTools
  else if d = "organizations" then organizationsTools
  else if d = "alerts" then alertsTools
  else if d = "tickets" then ticketsTools
  else []

/-! ### src/domains/index.ts — lazy handler registry -/

/-- A loaded domain handler instance. `instanceId` models JavaScript
object identity of the loaded module value, `domain` identifies which
module it is; its getTools is a pure function of the module. -/
structure DomainHandler where
  instanceId : Nat
  domain : String
deriving DecidableEq, Repr

/-- The getTools capability of a loaded handler. -/
def DomainHandler.getTools (h : DomainHandler) : List Tool :=
  domainToolsFor h.domain

/-- The module-level `domainCache` Map of domains/index.ts together with
the allocation counter supplying fresh handler instance identities. -/
structure Registry where
  cache : List (String × DomainHandler)
  nextInstanceId : Nat
deriving DecidableEq, Repr

/-- Map.get on the handler cache. -/
def Registry.find (r : Registry) (d : String) : Option DomainHandler :=
  (r.cache.find? (fun p => p.1 == d)).map (fun p => p.2)

/-- domains/index.ts getAvailableDomains: the fixed enumeration. -/
def getAvailableDomains : List String :=
  ["devices", "organizations", "alerts", "tickets"]

/-- Arguments of a tool call. The state machine itself only ever reads
the `domain` field (in the navigate branch); all other fields are passed
through opaquely to the handler dispatch, whose behaviour the theorems
quantify over. -/
structure Args where
  domain : Option String
deriving DecidableEq, Repr

/-- The two external behaviours a single request can trigger, supplied as
an oracle: whether the dynamic import of a domain module throws (and with
which message), and what a domain handler dispatch does — it may return a
result or throw, and it may read or replace the backing-client cache
slot. -/
structure ReqOracle where
  importError : String → Option String
  handlerCall : String → String → Args → ClientCacheState →
    (Except String CallToolResult) × ClientCacheState

/-- domains/index.ts getDomainHandler: return the cached instance when
present; otherwise, for an enumerated domain, import the module (which
may throw) and cache the loaded handler under the domain key; for any
other identifier the default branch throws. -/
def getDomainHandler (o : ReqOracle) (domain : String) (r : Registry) :
    Except String (DomainHandler × Registry) :=
  match r.find domain with
  | some cached => .ok (cached, r)
  | none =>
    if isDomainName domain then
      match o.importError domain with
      | some msg => .error msg
      | none =>
        let handler : DomainHandler := { instanceId := r.nextInstanceId, domain := domain }
        .ok (handler, { cache := r.cache ++ [(domain, handler)],
                        nextInstanceId := r.nextInstanceId + 1 })
    else
      .error ("Unknown domain: " ++ domain)

/-! ### src/index.ts — navigation state machine -/

/-- The whole process-wide mutable state the request handlers touch: the
`currentDomain` variable of index.ts, the handler registry and the
backing-client cache. -/
structure ServerState where
  currentDomain : Option String
  registry : Registry
  clientCache : ClientCacheState
deriving DecidableEq, Repr

/-- index.ts getToolsForState: at the root, navigate before status; in a
domain, back before status followed by the tools of the handler fetched
from the registry (whose lazy load may throw, propagated to the ListTools
handler which has no catch). -/
def getToolsForState (o : ReqOracle) (s : ServerState) :
    Except String (List Tool × ServerState) :=
  match s.currentDomain with
  | none => .ok ([navigateTool, statusTool], s)
  | some d =>
    match getDomainHandler o d s.registry with
    | .error msg => .error msg
    | .ok (handler, r') =>
      .ok ([backTool, statusTool] ++ handler.getTools, { s with registry := r' })

/-- A result with a single text block and isError true. -/
def errorResult (msg : String) : CallToolResult :=
  { content := [{ text := msg }], isError := some true }

/-- A result with a single text block and isError absent. -/
def textResult (msg : String) : CallToolResult :=
  { content := [{ text := msg }] }

/-- JavaScript string interpolation of a possibly-null string. -/
def jsString : Option String → String
  | none => "undefined"
  | some s => s

/-- The comma-separated available-domain listing interpolated into
several messages. -/
def availableDomainsText : String :=
  String.intercalate ", " getAvailableDomains

/-- The per-tool lines of the navigate confirmation. -/
def toolListText (ts : List Tool) : String :=
  String.intercalate "\n" (ts.map (fun t => "- " ++ t.name ++ ": " ++ t.description))

/-- Message of the invalid-domain error result of the navigate branch. -/
def invalidDomainMsg (domain : String) : String :=
  "Invalid domain: " ++ domain ++ ". Available domains: " ++ availableDomainsText

/-- Message of the missing-credentials error result of the navigate
branch. -/
def navigateNoCredsMsg : String :=
  "Error: No API credentials configured. Please set NINJAONE_CLIENT_ID, NINJAONE_CLIENT_SECRET, and optionally NINJAONE_REGION environment variables."

/-- Confirmation message of a successful navigate. -/
def navigatedMsg (domain : String) (domainTools : List Tool) : String :=
  "Navigated to " ++ domain ++ " domain.\n\nAvailable tools:\n" ++
  toolListText domainTools ++ "\n\nUse ninjaone_back to return to the main menu."

/-- Confirmation message of the back branch. -/
def backMsg (previousDomain : Option String) : String :=
  "Navigated back from " ++ jsOrString previousDomain "root" ++
  " to the main menu.\n\nAvailable domains: " ++ availableDomainsText ++
  "\n\nUse ninjaone_navigate to select a domain."

/-- Status report message. -/
def statusMsg (currentDomain : Option String) (creds : Option NinjaOneCredentials) : String :=
  let credStatus :=
    match creds with
    | some c => "Configured (region: " ++ c.region ++ ", base URL: " ++ c.baseUrl ++ ")"
    | none => "NOT CONFIGURED - Please set environment variables"
  "NinjaOne MCP Server Status\n\nCurrent domain: " ++
  jsOrString currentDomain "(none - at main menu)" ++
  "\nCredentials: " ++ credStatus ++ "\nAvailable domains: " ++ availableDomainsText

/-- Message of the unknown-tool error result, which names the current
domain when inside one. -/
def unknownToolMsg (currentDomain : Option String) (name : String) : String :=
  match currentDomain with
  | some d =>
    "Unknown tool: " ++ name ++ ". You are currently in the " ++ d ++
    " domain. Use ninjaone_back to return to the main menu."
  | none =>
    "Unknown tool: " ++ name ++ ". Use ninjaone_navigate to select a domain first."

/-- The CallTool request handler of index.ts. The four branches are
navigate, back, status and domain dispatch, falling through to the
unknown-tool error; the surrounding try/catch is inlined at the three
points where the body can throw (handler lazy load inside navigate,
handler lazy load inside dispatch, and the dispatch itself), each
yielding an isError result whose text prepends Error: to the thrown
message, with the state as already mutated at the throw point. -/
def callTool (o : ReqOracle) (env : Env) (name : String) (args : Args)
    (s : ServerState) : CallToolResult × ServerState :=
  if name = "ninjaone_navigate" then
    let domain := jsString args.domain
    if isDomainName domain then
      match getCredentials env with
      | none => (errorResult navigateNoCredsMsg, s)
      | some _ =>
        let s1 : ServerState := { s with currentDomain := some domain }
        match getDomainHandler o domain s1.registry with
        | .error msg => (errorResult ("Error: " ++ msg), s1)
        | .ok (handler, r') =>
          (textResult (navigatedMsg domain handler.getTools),
           { s1 with registry := r' })
    else
      (errorResult (invalidDomainMsg domain), s)
  else if name = "ninjaone_back" then
    let previousDomain := s.currentDomain
    (textResult (backMsg previousDomain), { s with currentDomain := none })
  else if name = "ninjaone_status" then
    (textResult (statusMsg s.currentDomain (getCredentials env)), s)
  else
    match s.currentDomain with
    | some d =>
      match getDomainHandler o d s.registry with
      | .error msg => (errorResult ("Error: " ++ msg), s)
      | .ok (handler, r') =>
        let s1 : ServerState := { s with registry := r' }
        if handler.getTools.any (fun t => t.name == name) then
          match o.handlerCall handler.domain name args s1.clientCache with
          | (.error msg, cc') => (errorResult ("Error: " ++ msg), { s1 with clientCache := cc' })
          | (.ok result, cc') => (result, { s1 with clientCache := cc' })
        else
          (errorResult (unknownToolMsg (some d) name), s1)
    | none =>
      (errorResult (unknownToolMsg none name), s)

/-! ### Reachability -/

/-- The state at process start: root, empty handler cache, empty client
slot, counters at zero. -/
def initialState : ServerState :=
  { currentDomain := none,
    registry := { cache := [], nextInstanceId := 0 },
    clientCache := { client := none, credentials := none, nextInstanceId := 0 } }

/-- One request processed against the shared state: either a CallTool
request (any name, any arguments, any ambient environment, any external
behaviour) or a ListTools request that completed. -/
inductive Step : ServerState → ServerState → Prop
  | call (o : ReqOracle) (env : Env) (name : String) (args : Args) (s : ServerState) :
      Step s (callTool o env name args s).2
  | list (o : ReqOracle) (s : ServerState) (ts : List Tool) (s' : ServerState) :
      getToolsForState o s = .ok (ts, s') → Step s s'

/-- States reachable from the initial state by any sequence of requests. -/
inductive Reachable : ServerState → Prop
  | init : Reachable initialState
  | step {s s' : ServerState} : Reachable s → Step s s' → Reachable s'

/-- Consistency of the handler cache: every cached handler is the module
of the domain it is stored under. -/
def Registry.WF (r : Registry) : Prop :=
  ∀ p ∈ r.cache, p.2.domain = p.1

/-- The client instance a cache-miss getClient constructs from the
resolved credentials. -/
def freshClientFor (st : ClientCacheState) (creds : NinjaOneCredentials) : NinjaOneClient :=
  { instanceId := st.nextInstanceId, clientId := creds.clientId,
    clientSecret := creds.clientSecret, baseUrl := creds.baseUrl }

/-! ### Sample values used by the witness theorems -/

/-- Environment with credentials and the us region. -/
def envUS : Env :=
  { ninjaoneClientId := some "a", ninjaoneClientSecret := some "b",
    ninjaoneRegion := some "us" }

/-- Environment with the same credentials and the eu region. -/
def envEU : Env :=
  { ninjaoneClientId := some "a", ninjaoneClientSecret := some "b",
    ninjaoneRegion := some "eu" }

/-- Environment with nothing configured. -/
def envNone : Env :=
  { ninjaoneClientId := none, ninjaoneClientSecret := none, ninjaoneRegion := none }

/-- The empty client cache. -/
def emptyClientCache : ClientCacheState :=
  { client := none, credentials := none, nextInstanceId := 0 }

/-- The credential record envUS resolves to. -/
def credsUS : NinjaOneCredentials :=
  { clientId := "a", clientSecret := "b", region := "us",
    baseUrl := "https://app.ninjarmm.com" }

/-- The credential record envEU resolves to. -/
def credsEU : NinjaOneCredentials :=
  { clientId := "a", clientSecret := "b", region := "eu",
    baseUrl := "https://eu.ninjarmm.com" }

/-- The client constructed on a first getClient under envUS. -/
def clientUS : NinjaOneClient :=
  { instanceId := 0, clientId := "a", clientSecret := "b",
    baseUrl := "https://app.ninjarmm.com" }

/-- The cache state after a first getClient under envUS. -/
def cacheUS : ClientCacheState :=
  { client := some clientUS, credentials := some credsUS, nextInstanceId := 1 }

/-- An oracle under which every import succeeds and every dispatch
returns an empty success result without touching the client cache. -/
def oracleNoop : ReqOracle :=
  { importError := fun _ => none,
    handlerCall := fun _ _ _ cc => (.ok (textResult ""), cc) }

/-- An oracle under which every dispatch throws. -/
def oracleThrow : ReqOracle :=
  { importError := fun _ => none,
    handlerCall := fun _ _ _ cc => (.error "Request failed with status code 500", cc) }

/-- An oracle under which every module import throws. -/
def oracleImportFail : ReqOracle :=
  { importError := fun _ => some "Cannot find module ./devices.js",
    handlerCall := fun _ _ _ cc => (.ok (textResult ""), cc) }

/-- The server state sitting in the devices domain with everything else
still empty. -/
def stateInDevices : ServerState :=
  { initialState with currentDomain := some "devices" }

/-! ### Lemmas about the backing-client cache -/

lemma credentialsChanged_self (creds : NinjaOneCredentials) :
    credentialsChanged creds creds = false := by
  simp [credentialsChanged]

lemma getClient_stable (env env' : Env) (st : ClientCacheState)
    (c : NinjaOneClient) (st' : ClientCacheState)
    (h : getClient env st = (.ok c, st'))
    (heq : getCredentials env' = getCredentials env) :
    getClient env' st' = (.ok c, st') := by
  unfold getClient at h ⊢
  cases hc : getCredentials env with
  | none => rw [hc] at h; simp at h
  | some creds =>
    rw [hc] at h
    rw [hc] at heq
    rw [heq]
    simp only at h ⊢
    rcases hcl : st.client with _ | c0 <;> rcases hcr : st.credentials with _ | stored <;>
        simp only [hcl, hcr] at h
    · simp only [Prod.mk.injEq, Except.ok.injEq] at h
      obtain ⟨h1, h2⟩ := h
      subst h2
      simp only [credentialsChanged_self, if_false, Bool.false_eq_true]
      simp [h1]
    · simp only [Prod.mk.injEq, Except.ok.injEq] at h
      obtain ⟨h1, h2⟩ := h
      subst h2
      simp only [credentialsChanged_self, if_false, Bool.false_eq_true]
      simp [h1]
    · simp only [Prod.mk.injEq, Except.ok.injEq] at h
      obtain ⟨h1, h2⟩ := h
      subst h2
      simp only [hcl, hcr]
      simp [h1]
    · cases hch : credentialsChanged creds stored with
      | true =>
        simp only [hch, if_true, hcl] at h
        simp only [Prod.mk.injEq, Except.ok.injEq] at h
        obtain ⟨h1, h2⟩ := h
        subst h2
        simp only [credentialsChanged_self, if_false, Bool.false_eq_true]
        simp [h1]
      | false =>
        simp only [hch, Bool.false_eq_true, if_false, hcl] at h
        simp only [Prod.mk.injEq, Except.ok.injEq] at h
        obtain ⟨h1, h2⟩ := h
        subst h2
        simp only [hcl, hcr, hch, Bool.false_eq_true, if_false]
        simp [h1]

lemma getClient_rotate (env : Env) (st : ClientCacheState)
    (c0 : NinjaOneClient) (stored creds : NinjaOneCredentials)
    (hwf : st.WF)
    (hcl : st.client = some c0) (hcr : st.credentials = some stored)
    (hc : getCredentials env = some creds)
    (hch : credentialsChanged creds stored = true) :
    getClient env st =
      (.ok (freshClientFor st creds),
       { client := some (freshClientFor st creds), credentials := some creds,
         nextInstanceId := st.nextInstanceId + 1 }) ∧
    freshClientFor st creds ≠ c0 := by
  constructor
  · unfold getClient
    rw [hc]
    simp only [hcl, hcr, hch, if_true]
    rfl
  · intro heq
    have hlt := hwf c0 hcl
    have : (freshClientFor st creds).instanceId = c0.instanceId := by rw [heq]
    simp only [freshClientFor] at this
    omega

lemma getClient_noCreds (env : Env) (st : ClientCacheState)
    (hc : getCredentials env = none) :
    getClient env st = (.error noCredentialsThrowMsg, st) := by
  simp [getClient, hc]

/-- C2: a getClient call after a successful one with an unchanged
credential record returns the identical cached instance and leaves the
cache as it was; a call while the stored record differs in any compared
field constructs and returns a distinct fresh instance, replacing the
slot; a call whose credentials do not resolve throws the no-credentials
error and leaves the cache untouched. -/
theorem getClient_cache_spec (env env' : Env) (st : ClientCacheState)
    (hwf : st.WF) :
    (∀ c st', getClient env st = (.ok c, st') →
      getCredentials env' = getCredentials env →
      getClient env' st' = (.ok c, st')) ∧
    (∀ c0 stored creds, st.client = some c0 → st.credentials = some stored →
      getCredentials env = some creds → credentialsChanged creds stored = true →
      getClient env st =
        (.ok (freshClientFor st creds),
         { client := some (freshClientFor st creds), credentials := some creds,
           nextInstanceId := st.nextInstanceId + 1 }) ∧
      freshClientFor st creds ≠ c0) ∧
    (getCredentials env = none →
      getClient env st = (.error noCredentialsThrowMsg, st)) := by
  refine ⟨?_, ?_, ?_⟩
  · exact fun c st' h heq => getClient_stable env env' st c st' h heq
  · exact fun c0 stored creds hcl hcr hc hch =>
      getClient_rotate env st c0 stored creds hwf hcl hcr hc hch
  · exact fun hc => getClient_noCreds env st hc

/-- C2 witness: under envUS the freshly filled cache returns the same
instance again; switching to envEU rotates to a distinct instance; with
nothing configured getClient fails and the empty cache is untouched. -/
theorem getClient_cache_spec_witness :
    getClient envUS cacheUS = (.ok clientUS, cacheUS) ∧
    (getClient envEU cacheUS =
       (.ok (freshClientFor cacheUS credsEU),
        { client := some (freshClientFor cacheUS credsEU),
          credentials := some credsEU, nextInstanceId := 2 }) ∧
     freshClientFor cacheUS credsEU ≠ clientUS) ∧
    getClient envNone emptyClientCache = (.error noCredentialsThrowMsg, emptyClientCache) := by
  have hwf : cacheUS.WF := by
    intro c hc
    simp only [cacheUS] at hc
    simp only [Option.some.injEq] at hc
    subst hc
    decide
  have hwfe : emptyClientCache.WF := by
    intro c hc
    simp [emptyClientCache] at hc
  refine ⟨?_, ?_, ?_⟩
  · exact (getClient_cache_spec envUS envUS cacheUS hwf).1 clientUS cacheUS (by decide) rfl
  · exact (getClient_cache_spec envEU envEU cacheUS hwf).2.1 clientUS credsUS credsEU
      (by decide) (by decide) (by decide) (by decide)
  · exact (getClient_cache_spec envNone envNone emptyClientCache hwfe).2.2 (by decide)

/-! ### Credential resolver -/

/-- C6 counterexample: the resolver does not distinguish its two
rejection cases. Missing credentials (client id unset) and an invalid
region token both make getCredentials return the same value, none, so
the two rejection kinds are not distinguishable outcomes of resolution.
-/
theorem credential_rejections_same_outcome :
    getCredentials { ninjaoneClientId := none, ninjaoneClientSecret := some "b",
                     ninjaoneRegion := some "us" } =
    getCredentials { ninjaoneClientId := some "a", ninjaoneClientSecret := some "b",
                     ninjaoneRegion := some "zz" } := by
  decide

/-- C6 amended: the resolver returns none when identity or secret is
unset or empty; returns none when the region token (lower-cased,
defaulting to us when absent or empty) is not a supported region; and on
success returns the record with the endpoint deterministically mapped
from the region. The two rejection cases yield the same outcome (none)
rather than distinguishable kinds. -/
theorem getCredentials_spec (env : Env) :
    (truthy env.ninjaoneClientId = false ∨ truthy env.ninjaoneClientSecret = false →
      getCredentials env = none) ∧
    (truthy env.ninjaoneClientId = true → truthy env.ninjaoneClientSecret = true →
      isValidRegion (effectiveRegion env) = false → getCredentials env = none) ∧
    (truthy env.ninjaoneClientId = true → truthy env.ninjaoneClientSecret = true →
      isValidRegion (effectiveRegion env) = true →
      getCredentials env = some
        { clientId := env.ninjaoneClientId.getD "",
          clientSecret := env.ninjaoneClientSecret.getD "",
          region := effectiveRegion env,
          baseUrl := getBaseUrlForRegion (effectiveRegion env) }) := by
  refine ⟨?_, ?_, ?_⟩
  · rintro (h | h) <;> simp [getCredentials, h]
  · intro h1 h2 h3
    simp [getCredentials, h1, h2, h3]
  · intro h1 h2 h3
    simp [getCredentials, h1, h2, h3]

/-- C6 witness: an unset id rejects; a bad region rejects; an upper-case
region token resolves to the lower-cased region and its endpoint. -/
theorem getCredentials_spec_witness :
    getCredentials envNone = none ∧
    getCredentials { ninjaoneClientId := some "a", ninjaoneClientSecret := some "b",
                     ninjaoneRegion := some "zz" } = none ∧
    getCredentials { ninjaoneClientId := some "a", ninjaoneClientSecret := some "b",
                     ninjaoneRegion := some "EU" } = some credsEU := by
  refine ⟨?_, ?_, ?_⟩
  · exact (getCredentials_spec envNone).1 (Or.inl (by decide))
  · exact (getCredentials_spec _).2.1 (by decide) (by decide) (by decide)
  · exact ((getCredentials_spec
      { ninjaoneClientId := some "a", ninjaoneClientSecret := some "b",
        ninjaoneRegion := some "EU" }).2.2
      (by decide) (by decide) (by decide)).trans (by decide)

/-! ### Domain handler registry -/

lemma find?_append_of_none {α : Type} (l₁ l₂ : List α) (p : α → Bool)
    (h : l₁.find? p = none) :
    (l₁ ++ l₂).find? p = l₂.find? p := by
  induction l₁ with
  | nil => simp
  | cons a l ih =>
    rw [List.find?] at h
    cases hp : p a with
    | true => rw [hp] at h; simp at h
    | false =>
      rw [hp] at h
      rw [List.cons_append, List.find?, hp]
      exact ih h

lemma Registry.find_after_load (r : Registry) (d : String) (h : DomainHandler) (n : Nat)
    (hm : r.find d = none) :
    Registry.find { cache := r.cache ++ [(d, h)], nextInstanceId := n } d = some h := by
  unfold Registry.find at hm ⊢
  rw [Option.map_eq_none'] at hm
  rw [find?_append_of_none _ _ _ hm]
  simp [List.find?]

lemma getDomainHandler_ok_find (o : ReqOracle) (d : String) (r : Registry)
    (h : DomainHandler) (r' : Registry)
    (hok : getDomainHandler o d r = .ok (h, r')) :
    r'.find d = some h := by
  unfold getDomainHandler at hok
  cases hf : r.find d with
  | some cached =>
    rw [hf] at hok
    simp only [Except.ok.injEq, Prod.mk.injEq] at hok
    obtain ⟨h1, h2⟩ := hok
    subst h1; subst h2
    exact hf
  | none =>
    rw [hf] at hok
    cases hv : isDomainName d with
    | false => rw [hv] at hok; simp at hok
    | true =>
      rw [hv] at hok
      simp only [if_true] at hok
      cases he : o.importError d with
      | some msg => rw [he] at hok; simp at hok
      | none =>
        rw [he] at hok
        simp only [Except.ok.injEq, Prod.mk.injEq] at hok
        obtain ⟨h1, h2⟩ := hok
        subst h1; subst h2
        exact Registry.find_after_load r d _ _ hf

/-- C7: a cached handler is returned as is; a first request for an
enumerated domain whose import succeeds loads a handler and caches it
under the domain key; and any successful request is idempotent — a
repeated request for the same domain (under any import behaviour)
returns the identical handler instance and the same registry. -/
theorem getDomainHandler_cache_spec (o : ReqOracle) (d : String) (r : Registry) :
    (∀ h, r.find d = some h → getDomainHandler o d r = .ok (h, r)) ∧
    (r.find d = none → isDomainName d = true → o.importError d = none →
      getDomainHandler o d r =
        .ok ({ instanceId := r.nextInstanceId, domain := d },
             { cache := r.cache ++ [(d, { instanceId := r.nextInstanceId, domain := d })],
               nextInstanceId := r.nextInstanceId + 1 })) ∧
    (∀ h r', getDomainHandler o d r = .ok (h, r') →
      ∀ o', getDomainHandler o' d r' = .ok (h, r')) := by
  refine ⟨?_, ?_, ?_⟩
  · intro h hf
    unfold getDomainHandler
    rw [hf]
  · intro hf hv he
    unfold getDomainHandler
    rw [hf]
    simp only [hv, he, if_true]
  · intro h r' hok o'
    have hf := getDomainHandler_ok_find o d r h r' hok
    unfold getDomainHandler
    rw [hf]

/-- C7 witness: the first request for devices on the empty registry loads
and caches a handler; the repeated request returns the identical instance
and registry even under an oracle with different external behaviour. -/
theorem getDomainHandler_cache_spec_witness :
    getDomainHandler oracleNoop "devices" { cache := [], nextInstanceId := 0 } =
      .ok ({ instanceId := 0, domain := "devices" },
           { cache := [("devices", { instanceId := 0, domain := "devices" })],
             nextInstanceId := 1 }) ∧
    getDomainHandler oracleThrow "devices"
        { cache := [("devices", { instanceId := 0, domain := "devices" })],
          nextInstanceId := 1 } =
      .ok ({ instanceId := 0, domain := "devices" },
           { cache := [("devices", { instanceId := 0, domain := "devices" })],
             nextInstanceId := 1 }) := by
  have h1 := (getDomainHandler_cache_spec oracleNoop "devices"
      { cache := [], nextInstanceId := 0 }).2.1 (by decide) (by decide) rfl
  refine ⟨h1, ?_⟩
  exact (getDomainHandler_cache_spec oracleNoop "devices"
      { cache := [], nextInstanceId := 0 }).2.2 _ _ h1 oracleThrow

/-! ### Lemmas about the navigation state machine -/

lemma Registry.WF.find_domain {r : Registry} (hwf : r.WF) {d : String} {h : DomainHandler}
    (hf : r.find d = some h) : h.domain = d := by
  unfold Registry.find at hf
  cases hfind : r.cache.find? (fun p => p.1 == d) with
  | none => rw [hfind] at hf; simp at hf
  | some p =>
    rw [hfind] at hf
    simp only [Option.map_some', Option.some.injEq] at hf
    have hmem := List.mem_of_find?_eq_some hfind
    have hp := List.find?_some hfind
    have hpd : p.1 = d := by simpa using hp
    rw [← hf, hwf p hmem, hpd]

lemma getDomainHandler_ok_domain (o : ReqOracle) (d : String) (r : Registry)
    (h : DomainHandler) (r' : Registry) (hwf : r.WF)
    (hok : getDomainHandler o d r = .ok (h, r')) : h.domain = d := by
  unfold getDomainHandler at hok
  cases hf : r.find d with
  | some cached =>
    rw [hf] at hok
    simp only [Except.ok.injEq, Prod.mk.injEq] at hok
    rw [← hok.1]
    exact hwf.find_domain hf
  | none =>
    rw [hf] at hok
    cases hv : isDomainName d with
    | false => rw [hv] at hok; simp at hok
    | true =>
      rw [hv] at hok
      simp only [if_true] at hok
      cases he : o.importError d with
      | some msg => rw [he] at hok; simp at hok
      | none =>
        rw [he] at hok
        simp only [Except.ok.injEq, Prod.mk.injEq] at hok
        rw [← hok.1]

lemma getDomainHandler_loadable (o : ReqOracle) (d : String) (r : Registry)
    (hv : isDomainName d = true) (he : o.importError d = none) :
    (getDomainHandler o d r).isOk = true := by
  unfold getDomainHandler
  cases hf : r.find d with
  | some cached => rfl
  | none => simp only [hv, he, if_true]; rfl

lemma callTool_currentDomain_cases (o : ReqOracle) (env : Env) (name : String)
    (args : Args) (s : ServerState) :
    (callTool o env name args s).2.currentDomain = s.currentDomain ∨
    (callTool o env name args s).2.currentDomain = none ∨
    ((callTool o env name args s).2.currentDomain = some (jsString args.domain) ∧
      isDomainName (jsString args.domain) = true) := by
  unfold callTool
  by_cases h1 : name = "ninjaone_navigate"
  · rw [if_pos h1]
    cases hv : isDomainName (jsString args.domain) with
    | false => left; simp [hv]
    | true =>
      cases hc : getCredentials env with
      | none => left; simp [hv, hc]
      | some creds =>
        cases hh : getDomainHandler o (jsString args.domain) s.registry with
        | error msg =>
          right; right
          refine ⟨?_, rfl⟩
          simp [hv, hc, hh]
        | ok pr =>
          cases pr with
          | mk handler r' =>
            right; right
            refine ⟨?_, rfl⟩
            simp [hv, hc, hh]
  · rw [if_neg h1]
    by_cases h2 : name = "ninjaone_back"
    · rw [if_pos h2]
      right; left
      rfl
    · rw [if_neg h2]
      by_cases h3 : name = "ninjaone_status"
      · rw [if_pos h3]
        left; rfl
      · rw [if_neg h3]
        cases hd : s.currentDomain with
        | none => left; simp [hd]
        | some d =>
          cases hh : getDomainHandler o d s.registry with
          | error msg => left; simp [hd, hh]
          | ok pr =>
            cases pr with
            | mk handler r' =>
              cases ht : handler.getTools.any (fun t => t.name == name) with
              | false => left; simp [hd, hh, ht]
              | true =>
                cases hcall : o.handlerCall handler.domain name args s.clientCache with
                | mk res cc' =>
                  cases res with
                  | error msg => left; simp [hd, hh, ht, hcall]
                  | ok result => left; simp [hd, hh, ht, hcall]

lemma getToolsForState_currentDomain (o : ReqOracle) (s : ServerState)
    (ts : List Tool) (s' : ServerState)
    (hok : getToolsForState o s = .ok (ts, s')) :
    s'.currentDomain = s.currentDomain := by
  unfold getToolsForState at hok
  cases hd : s.currentDomain with
  | none =>
    rw [hd] at hok
    simp only [Except.ok.injEq, Prod.mk.injEq] at hok
    rw [← hok.2]
    exact hd
  | some d =>
    simp only [hd] at hok
    cases hh : getDomainHandler o d s.registry with
    | error msg => rw [hh] at hok; simp at hok
    | ok pr =>
      cases pr with
      | mk handler r' =>
        rw [hh] at hok
        simp only [Except.ok.injEq, Prod.mk.injEq] at hok
        rw [← hok.2]

/-! ### Claim theorems about the navigation state machine -/

/-- C1: list-tools leaves the navigation state (and the client cache)
unchanged and returns exactly the tool set determined by the state: at
the root, the navigate and status descriptors; in a domain, the back and
status descriptors followed by the tool descriptors of that domain
handler (whenever the handler is available — already cached or freshly
importable — list-tools succeeds with that exact set; the registry cache
may warm up as a side effect of the lazy first load). -/
theorem listTools_spec (o : ReqOracle) (s : ServerState) (hwf : s.registry.WF) :
    (s.currentDomain = none →
      getToolsForState o s = .ok ([navigateTool, statusTool], s)) ∧
    (∀ d ts s', s.currentDomain = some d → getToolsForState o s = .ok (ts, s') →
      ts = [backTool, statusTool] ++ domainToolsFor d ∧
      s'.currentDomain = s.currentDomain ∧ s'.clientCache = s.clientCache) ∧
    (∀ d, s.currentDomain = some d →
      (s.registry.find d ≠ none ∨ (isDomainName d = true ∧ o.importError d = none)) →
      ∃ s', getToolsForState o s = .ok ([backTool, statusTool] ++ domainToolsFor d, s')) := by
  refine ⟨?_, ?_, ?_⟩
  · intro hd
    unfold getToolsForState
    rw [hd]
  · intro d ts s' hd hok
    unfold getToolsForState at hok
    simp only [hd] at hok
    cases hh : getDomainHandler o d s.registry with
    | error msg => rw [hh] at hok; simp at hok
    | ok pr =>
      cases pr with
      | mk handler r' =>
        rw [hh] at hok
        simp only [Except.ok.injEq, Prod.mk.injEq] at hok
        obtain ⟨hts, hs'⟩ := hok
        have hdom := getDomainHandler_ok_domain o d s.registry handler r' hwf hh
        refine ⟨?_, ?_, ?_⟩
        · rw [← hts]
          simp [DomainHandler.getTools, hdom]
        · rw [← hs', hd]
        · rw [← hs']
  · intro d hd hload
    unfold getToolsForState
    simp only [hd]
    cases hf : s.registry.find d with
    | some handler =>
      have hh : getDomainHandler o d s.registry = .ok (handler, s.registry) := by
        unfold getDomainHandler
        rw [hf]
      have hdom : handler.domain = d := hwf.find_domain hf
      simp only [hh, DomainHandler.getTools, hdom]
      exact ⟨_, rfl⟩
    | none =>
      rcases hload with hne | ⟨hv, he⟩
      · exact absurd hf hne
      · have hh : getDomainHandler o d s.registry =
            .ok ({ instanceId := s.registry.nextInstanceId, domain := d },
                 { cache := s.registry.cache ++
                     [(d, { instanceId := s.registry.nextInstanceId, domain := d })],
                   nextInstanceId := s.registry.nextInstanceId + 1 }) := by
          unfold getDomainHandler
          rw [hf]
          simp only [hv, he, if_true]
        simp only [hh, DomainHandler.getTools]
        exact ⟨_, rfl⟩

/-- C1 witness: at the root the navigate and status tools are returned
with the state untouched; in the devices domain the back and status
tools are returned together with the devices tools. -/
theorem listTools_spec_witness :
    getToolsForState oracleNoop initialState = .ok ([navigateTool, statusTool], initialState) ∧
    (∃ s', getToolsForState oracleNoop stateInDevices =
      .ok ([backTool, statusTool] ++ domainToolsFor "devices", s')) := by
  have hwf : initialState.registry.WF := by
    intro p hp
    simp [initialState] at hp
  have hwf2 : stateInDevices.registry.WF := by
    intro p hp
    simp [stateInDevices, initialState] at hp
  refine ⟨(listTools_spec oracleNoop initialState hwf).1 rfl, ?_⟩
  exact (listTools_spec oracleNoop stateInDevices hwf2).2.2 "devices" rfl
    (Or.inr ⟨by decide, rfl⟩)

/-- C3 counterexample: with unresolvable credentials the navigate branch
leaves the state exactly as it was, which is not Root when navigate is
invoked while a domain is selected. From InDomain devices, navigating to
alerts with no credentials configured yields an error result while the
state stays InDomain devices, not Root. -/
theorem navigate_missing_creds_counterexample :
    (callTool oracleNoop envNone "ninjaone_navigate" { domain := some "alerts" }
        stateInDevices).1.isError = some true ∧
    (callTool oracleNoop envNone "ninjaone_navigate" { domain := some "alerts" }
        stateInDevices).2.currentDomain = some "devices" ∧
    some "devices" ≠ (none : Option String) := by
  decide

/-- C3 amended: navigate with an identifier outside the enumerated set
returns an error result and leaves the whole state unchanged; navigate
with a valid domain but unresolvable credentials returns an error result
and leaves the whole state unchanged (in particular the state remains
Root whenever the call is made at Root); when the domain is valid and
credentials resolve the state moves to that domain, and if the handler
is available the confirmation lists its tools; and the navigation state
changes only when the domain is valid and credentials resolve. -/
theorem navigate_spec (o : ReqOracle) (env : Env) (args : Args) (s : ServerState) :
    (isDomainName (jsString args.domain) = false →
      callTool o env "ninjaone_navigate" args s =
        (errorResult (invalidDomainMsg (jsString args.domain)), s)) ∧
    (isDomainName (jsString args.domain) = true → getCredentials env = none →
      callTool o env "ninjaone_navigate" args s = (errorResult navigateNoCredsMsg, s)) ∧
    (isDomainName (jsString args.domain) = true → getCredentials env ≠ none →
      (callTool o env "ninjaone_navigate" args s).2.currentDomain =
        some (jsString args.domain) ∧
      (∀ h r', getDomainHandler o (jsString args.domain) s.registry = .ok (h, r') →
        callTool o env "ninjaone_navigate" args s =
          (textResult (navigatedMsg (jsString args.domain) h.getTools),
           { s with currentDomain := some (jsString args.domain), registry := r' }))) ∧
    ((callTool o env "ninjaone_navigate" args s).2.currentDomain ≠ s.currentDomain →
      isDomainName (jsString args.domain) = true ∧ getCredentials env ≠ none) := by
  have hinv : isDomainName (jsString args.domain) = false →
      callTool o env "ninjaone_navigate" args s =
        (errorResult (invalidDomainMsg (jsString args.domain)), s) := by
    intro hv
    unfold callTool
    simp only [String.reduceEq, reduceIte, hv, Bool.false_eq_true, if_false]
  have hnc : isDomainName (jsString args.domain) = true → getCredentials env = none →
      callTool o env "ninjaone_navigate" args s = (errorResult navigateNoCredsMsg, s) := by
    intro hv hc
    unfold callTool
    simp only [String.reduceEq, reduceIte, hv, if_true, hc]
  refine ⟨hinv, hnc, ?_, ?_⟩
  · intro hv hc
    constructor
    · unfold callTool
      simp only [String.reduceEq, reduceIte, hv, if_true]
      cases hcc : getCredentials env with
      | none => exact absurd hcc hc
      | some creds =>
        cases hh : getDomainHandler o (jsString args.domain) s.registry with
        | error msg =>
          simp only [show ({ s with currentDomain := some (jsString args.domain) } :
            ServerState).registry = s.registry from rfl, hh]
        | ok pr =>
          cases pr with
          | mk handler r' => simp only [hh]
    · intro h r' hgd
      unfold callTool
      simp only [String.reduceEq, reduceIte, hv, if_true]
      cases hcc : getCredentials env with
      | none => exact absurd hcc hc
      | some creds => simp only [hgd]
  · intro hne
    cases hv : isDomainName (jsString args.domain) with
    | false =>
      exfalso
      apply hne
      rw [hinv hv]
    | true =>
      refine ⟨rfl, ?_⟩
      intro hc
      apply hne
      rw [hnc hv hc]

/-- C3 witness: a bogus domain is refused with the state untouched;
a valid domain with no credentials is refused with the state untouched;
a valid domain with credentials moves the state into that domain. -/
theorem navigate_spec_witness :
    callTool oracleNoop envUS "ninjaone_navigate" { domain := some "bogus" } initialState =
      (errorResult (invalidDomainMsg "bogus"), initialState) ∧
    callTool oracleNoop envNone "ninjaone_navigate" { domain := some "devices" } initialState =
      (errorResult navigateNoCredsMsg, initialState) ∧
    (callTool oracleNoop envUS "ninjaone_navigate" { domain := some "devices" }
        initialState).2.currentDomain = some "devices" := by
  refine ⟨?_, ?_, ?_⟩
  · exact (navigate_spec oracleNoop envUS { domain := some "bogus" } initialState).1
      (by decide)
  · exact (navigate_spec oracleNoop envNone { domain := some "devices" } initialState).2.1
      (by decide) (by decide)
  · exact ((navigate_spec oracleNoop envUS { domain := some "devices" } initialState).2.2.1
      (by decide) (by decide)).1

/-- C4: a failure thrown by the dispatched domain handler (which covers
failures of the backing-client cache and of the remote API inside it) is
caught at the CallTool boundary and converted into a result with isError
true carrying the failure message, while the navigation state stays in
its current domain; the step function is total, so no failure escapes
the machine uncaught. -/
theorem dispatch_handler_error (o : ReqOracle) (env : Env) (name : String) (args : Args)
    (s : ServerState) (d : String) (handler : DomainHandler) (r' : Registry)
    (msg : String) (cc' : ClientCacheState)
    (h1 : name ≠ "ninjaone_navigate") (h2 : name ≠ "ninjaone_back")
    (h3 : name ≠ "ninjaone_status")
    (hd : s.currentDomain = some d)
    (hh : getDomainHandler o d s.registry = .ok (handler, r'))
    (ht : handler.getTools.any (fun t => t.name == name) = true)
    (hc : o.handlerCall handler.domain name args s.clientCache = (.error msg, cc')) :
    callTool o env name args s =
      (errorResult ("Error: " ++ msg),
       { currentDomain := some d, registry := r', clientCache := cc' }) := by
  unfold callTool
  rw [if_neg h1, if_neg h2, if_neg h3, hd]
  simp only [hh, ht, if_true, hc]

/-- C4 witness: a dispatch of the devices list tool whose handler throws
a remote failure yields an isError result carrying the message, with the
session still in the devices domain. -/
theorem dispatch_handler_error_witness :
    callTool oracleThrow envUS "ninjaone_devices_list" { domain := none } stateInDevices =
      (errorResult "Error: Request failed with status code 500",
       { currentDomain := some "devices",
         registry := { cache := [("devices", { instanceId := 0, domain := "devices" })],
                       nextInstanceId := 1 },
         clientCache := emptyClientCache }) := by
  exact dispatch_handler_error oracleThrow envUS "ninjaone_devices_list" { domain := none }
    stateInDevices "devices" { instanceId := 0, domain := "devices" }
    { cache := [("devices", { instanceId := 0, domain := "devices" })], nextInstanceId := 1 }
    "Request failed with status code 500" emptyClientCache
    (by decide) (by decide) (by decide) rfl (by decide) (by decide) (by decide)

/-- C5: a non-meta tool name is forwarded only when the session is in a
domain whose handler declares it; at the root, and in a domain whose
handler does not declare the name (in particular a name belonging to a
different domain — there is no cross-domain fallback), the call returns
the unknown-tool error result with isError true and the navigation state
is unchanged (the registry may warm up from the lazy handler load). -/
theorem dispatch_unknown_tool (o : ReqOracle) (env : Env) (args : Args)
    (s : ServerState) (name : String)
    (h1 : name ≠ "ninjaone_navigate") (h2 : name ≠ "ninjaone_back")
    (h3 : name ≠ "ninjaone_status") :
    (s.currentDomain = none →
      callTool o env name args s = (errorResult (unknownToolMsg none name), s)) ∧
    (∀ d handler r', s.currentDomain = some d →
      getDomainHandler o d s.registry = .ok (handler, r') →
      handler.getTools.any (fun t => t.name == name) = false →
      callTool o env name args s =
        (errorResult (unknownToolMsg (some d) name), { s with registry := r' })) := by
  constructor
  · intro hd
    unfold callTool
    rw [if_neg h1, if_neg h2, if_neg h3, hd]
  · intro d handler r' hd hh ht
    unfold callTool
    rw [if_neg h1, if_neg h2, if_neg h3, hd]
    simp only [hh, ht, Bool.false_eq_true, if_false]

/-- C5 witness: a tickets tool at the root is unknown; an organizations
tool while in the devices domain is unknown and the session stays in
devices. -/
theorem dispatch_unknown_tool_witness :
    callTool oracleNoop envUS "ninjaone_tickets_list" { domain := none } initialState =
      (errorResult (unknownToolMsg none "ninjaone_tickets_list"), initialState) ∧
    callTool oracleNoop envUS "ninjaone_organizations_list" { domain := none } stateInDevices =
      (errorResult (unknownToolMsg (some "devices") "ninjaone_organizations_list"),
       { stateInDevices with
         registry := { cache := [("devices", { instanceId := 0, domain := "devices" })],
                       nextInstanceId := 1 } }) := by
  constructor
  · exact (dispatch_unknown_tool oracleNoop envUS { domain := none } initialState
      "ninjaone_tickets_list" (by decide) (by decide) (by decide)).1 rfl
  · exact (dispatch_unknown_tool oracleNoop envUS { domain := none } stateInDevices
      "ninjaone_organizations_list" (by decide) (by decide) (by decide)).2
      "devices" { instanceId := 0, domain := "devices" }
      { cache := [("devices", { instanceId := 0, domain := "devices" })], nextInstanceId := 1 }
      rfl (by decide) (by decide)

/-- C8: in every state reachable from the initial Root state by any
sequence of requests, a selected domain is one of the statically
enumerated domain identifiers and its handler is loadable from the
registry (the registry never hits its unknown-domain branch for it: a
lookup succeeds whenever the import of its module does not throw). -/
theorem reachable_nonroot_valid (s : ServerState) (hs : Reachable s) (d : String)
    (hd : s.currentDomain = some d) :
    isDomainName d = true ∧
    (∀ o r, o.importError d = none → (getDomainHandler o d r).isOk = true) := by
  induction hs generalizing d with
  | init => simp [initialState] at hd
  | step hr hstep ih =>
    cases hstep with
    | call o env name args =>
      rcases callTool_currentDomain_cases o env name args _ with h | h | ⟨h, hv⟩
      · exact ih d (h ▸ hd)
      · rw [h] at hd; exact Option.noConfusion hd
      · rw [h] at hd
        have hdd := Option.some.inj hd
        rw [← hdd]
        exact ⟨hv, fun o' r he => getDomainHandler_loadable o' _ r hv he⟩
    | list =>
      rename_i o ts hok
      have hcd := getToolsForState_currentDomain _ _ _ _ hok
      exact ih d (hcd ▸ hd)

/-- C8 witness: the state reached by one successful navigate to devices
is reachable, and the invariant holds there for devices. -/
theorem reachable_nonroot_valid_witness :
    isDomainName "devices" = true ∧
    (∀ o r, o.importError "devices" = none →
      (getDomainHandler o "devices" r).isOk = true) := by
  have hreach : Reachable (callTool oracleNoop envUS "ninjaone_navigate"
      { domain := some "devices" } initialState).2 :=
    Reachable.step Reachable.init
      (Step.call oracleNoop envUS "ninjaone_navigate" { domain := some "devices" } initialState)
  exact reachable_nonroot_valid _ hreach "devices" (by decide)

/-- C9: navigate assigns the navigation state before awaiting the lazy
handler load, so when the module import throws, navigate returns an
isError result wrapping the thrown message while the state has already
moved to the requested domain — the prior state is not restored. -/
theorem navigate_not_atomic (o : ReqOracle) (env : Env) (args : Args) (s : ServerState)
    (msg : String)
    (hv : isDomainName (jsString args.domain) = true)
    (hc : getCredentials env ≠ none)
    (hm : s.registry.find (jsString args.domain) = none)
    (he : o.importError (jsString args.domain) = some msg) :
    callTool o env "ninjaone_navigate" args s =
      (errorResult ("Error: " ++ msg),
       { s with currentDomain := some (jsString args.domain) }) := by
  unfold callTool
  simp only [String.reduceEq, reduceIte, hv, if_true]
  cases hcc : getCredentials env with
  | none => exact absurd hcc hc
  | some creds =>
    have hgd : getDomainHandler o (jsString args.domain) s.registry = .error msg := by
      unfold getDomainHandler
      rw [hm]
      simp only [hv, if_true, he]
    simp only [hgd]

/-- C9 witness: with credentials configured and an import that throws,
navigating to devices from the initial state errors while the state has
moved into the devices domain. -/
theorem navigate_not_atomic_witness :
    callTool oracleImportFail envUS "ninjaone_navigate" { domain := some "devices" }
        initialState =
      (errorResult "Error: Cannot find module ./devices.js",
       { initialState with currentDomain := some "devices" }) := by
  exact navigate_not_atomic oracleImportFail envUS { domain := some "devices" } initialState
    "Cannot find module ./devices.js" (by decide) (by decide) (by decide) rfl

/-- C10: the three meta tools never touch the backing-client cache slot:
navigate checks credentials through the resolver alone and back and
status never construct a client, so after any of them the client cache
equals what it was before; only a dispatched domain tool call can change
it. -/
theorem meta_tools_leave_clientCache (o : ReqOracle) (env : Env) (name : String)
    (args : Args) (s : ServerState)
    (hm : name = "ninjaone_navigate" ∨ name = "ninjaone_back" ∨ name = "ninjaone_status") :
    (callTool o env name args s).2.clientCache = s.clientCache := by
  rcases hm with h | h | h <;> subst h <;> unfold callTool <;>
      simp only [String.reduceEq, reduceIte]
  · cases hv : isDomainName (jsString args.domain) with
    | false => simp only [hv, Bool.false_eq_true, if_false]
    | true =>
      simp only [hv, if_true]
      cases hc : getCredentials env with
      | none => rfl
      | some creds =>
        cases hh : getDomainHandler o (jsString args.domain)
            ({ s with currentDomain := some (jsString args.domain) } : ServerState).registry with
        | error msg => simp
        | ok pr =>
          cases pr with
          | mk handler r' => simp

/-- C10 witness: a successful navigate into devices leaves the client
cache slot exactly as it was. -/
theorem meta_tools_leave_clientCache_witness :
    (callTool oracleNoop envUS "ninjaone_navigate" { domain := some "devices" }
        stateInDevices).2.clientCache = stateInDevices.clientCache := by
  exact meta_tools_leave_clientCache oracleNoop envUS "ninjaone_navigate"
    { domain := some "devices" } stateInDevices (Or.inl rfl)

end NinjaOne
